import Mathlib

set_option maxRecDepth 100000

/-!
Verification of `sql_climate_demo.py`: a shallow embedding of the script's
in-memory SQLite table, its three SQL queries (GROUP BY aggregation, RANK()
window function, CTE top-per-partition filter), its Pandas correlation step,
and the control flow of `main`.  SQLite FLOAT columns are modelled as exact
rationals; query results are Lean lists in the order the queries return them.
-/

namespace SqlClimateDemo

/-- A row of the `climate_data` table: schema from `create_and_populate_db`
(`id INTEGER PRIMARY KEY AUTOINCREMENT`, `city TEXT NOT NULL`,
`reading_date TEXT NOT NULL`, `temperature FLOAT NOT NULL`,
`humidity FLOAT NOT NULL`). -/
structure Record where
  id : Nat
  city : String
  reading_date : String
  temperature : ℚ
  humidity : ℚ
deriving DecidableEq, Repr

/-- The twelve literal records of the `records` list in
`create_and_populate_db` (city, reading_date, temperature, humidity), in
source order. -/
def sampleData : List (String × String × ℚ × ℚ) :=
  [ ("New York",  "2025-01-01",  -5.2,  35.0),
    ("New York",  "2025-01-02",  -2.1,  40.0),
    ("New York",  "2025-01-03",   0.5,  42.0),
    ("Chicago",   "2025-01-01",  -7.0,  50.0),
    ("Chicago",   "2025-01-02",  -5.5,  55.0),
    ("Chicago",   "2025-01-03",  -3.2,  48.0),
    ("Houston",   "2025-01-01",  10.2,  70.0),
    ("Houston",   "2025-01-02",  12.1,  68.0),
    ("Houston",   "2025-01-03",  15.0,  65.0),
    ("San Diego", "2025-01-01",  15.2,  55.0),
    ("San Diego", "2025-01-02",  16.5,  52.0),
    ("San Diego", "2025-01-03",  18.0,  50.0) ]

/-- State of the in-memory SQLite database: whether `climate_data` exists,
its rows, and the next AUTOINCREMENT id. -/
structure DBState where
  tableExists : Bool
  rows : List Record
  nextId : Nat
deriving DecidableEq, Repr

/-- A fresh `sqlite3.connect(":memory:")` database: no table yet. -/
def emptyDB : DBState := ⟨false, [], 1⟩

/-- `CREATE TABLE [IF NOT EXISTS] climate_data ...`: fails when the table
already exists and `IF NOT EXISTS` is absent, otherwise is a no-op or
creates the empty table. -/
def createTable (ifNotExists : Bool) (db : DBState) : Except String DBState :=
  if db.tableExists then
    if ifNotExists then .ok db else .error "table climate_data already exists"
  else .ok { db with tableExists := true }

/-- One `INSERT INTO climate_data (city, reading_date, temperature, humidity)
VALUES (?, ?, ?, ?)`: appends a row with the next AUTOINCREMENT id. -/
def insertRecord (db : DBState) (r : String × String × ℚ × ℚ) : DBState :=
  { db with
    rows := db.rows ++ [⟨db.nextId, r.1, r.2.1, r.2.2.1, r.2.2.2⟩],
    nextId := db.nextId + 1 }

/-- `connection.executemany(insert_query, records)`: inserts all tuples in
order. -/
def insertMany (db : DBState) (rs : List (String × String × ℚ × ℚ)) : DBState :=
  rs.foldl insertRecord db

/-- `create_and_populate_db`: `CREATE TABLE IF NOT EXISTS` then the single
batch insert of the twelve literal records (the commit is a no-op for the
in-memory model). -/
def create_and_populate_db (db : DBState) : Except String DBState := do
  let db1 ← createTable true db
  pure (insertMany db1 sampleData)

/-- The database state after the first `create_and_populate_db` on a fresh
connection: the twelve records with ids 1..12. -/
def db12 : DBState := insertMany { emptyDB with tableExists := true } sampleData

/-! ### Aggregation query (`run_basic_analytics`) -/

/-- SQL `AVG` of a list of values (arithmetic mean). -/
def listAvg (l : List ℚ) : ℚ := l.sum / (l.length : ℚ)

/-- Distinct values of a list, in order of first occurrence (the grouping
keys produced by `GROUP BY`). -/
def firstOccurrences (l : List String) : List String :=
  l.foldl (fun acc c => if c ∈ acc then acc else acc ++ [c]) []

/-- A row of the aggregation report: `city, AVG(temperature) AS avg_temp,
AVG(humidity) AS avg_humidity`. -/
structure AvgRow where
  city : String
  avg_temp : ℚ
  avg_humidity : ℚ
deriving DecidableEq, Repr

/-- Stable insertion: `a` is placed before the first element `b` with
`le a b`; elements it ties with (under the underlying key) stay before it. -/
def insertSorted (le : α → α → Bool) (a : α) : List α → List α
  | [] => [a]
  | b :: l => if le a b then a :: b :: l else b :: insertSorted le a l

/-- Stable insertion sort with respect to a boolean `le`. -/
def sortByLe (le : α → α → Bool) (l : List α) : List α :=
  l.foldr (insertSorted le) []

/-- The `query_avg` of `run_basic_analytics`:
`SELECT city, AVG(temperature), AVG(humidity) FROM climate_data
GROUP BY city ORDER BY avg_temp DESC`. -/
def query_avg (rows : List Record) : List AvgRow :=
  sortByLe (fun a b => decide (b.avg_temp ≤ a.avg_temp))
    ((firstOccurrences (rows.map (·.city))).map fun c =>
      let grp := rows.filter (fun r => r.city = c)
      ⟨c, listAvg (grp.map (·.temperature)), listAvg (grp.map (·.humidity))⟩)

/-! ### Window-function and CTE queries (`run_advanced_analytics`) -/

/-- A row of the ranking report (and of the CTE's `SELECT *`):
`city, reading_date, temperature, temp_rank`. -/
structure RankRow where
  city : String
  reading_date : String
  temperature : ℚ
  temp_rank : Nat
deriving DecidableEq, Repr

/-- SQL `RANK() OVER (PARTITION BY reading_date ORDER BY temperature DESC)`
for one row: 1 plus the number of rows of the same date with strictly
greater temperature (rank with gaps on ties). -/
def rankOf (rows : List Record) (r : Record) : Nat :=
  1 + (rows.filter fun s =>
        s.reading_date = r.reading_date ∧ r.temperature < s.temperature).length

/-- The table extended with the `temp_rank` window column, before any
`ORDER BY`. -/
def rankedRows (rows : List Record) : List RankRow :=
  rows.map fun r => ⟨r.city, r.reading_date, r.temperature, rankOf rows r⟩

/-- The `query_window` of `run_advanced_analytics`:
`SELECT city, reading_date, temperature, RANK() OVER (...) AS temp_rank
FROM climate_data ORDER BY reading_date, temp_rank`. -/
def query_window (rows : List Record) : List RankRow :=
  sortByLe
    (fun a b => decide (a.reading_date < b.reading_date) ||
      (decide (a.reading_date = b.reading_date) && decide (a.temp_rank ≤ b.temp_rank)))
    (rankedRows rows)

/-- The `query_cte` of `run_advanced_analytics`:
`WITH ranked_temps AS (... RANK() ...) SELECT * FROM ranked_temps
WHERE temp_rank = 1 ORDER BY reading_date`. -/
def query_cte (rows : List Record) : List RankRow :=
  sortByLe (fun a b => decide (a.reading_date ≤ b.reading_date))
    ((rankedRows rows).filter fun r => r.temp_rank = 1)

/-- Written from the spec's words (§4.4): take the §4.3 ranking report
(the `query_window` output), retain only the rows whose rank equals 1, and
order the result by reading date ascending.  Compared with `query_cte`,
which is translated from the source's CTE text. -/
def specTopPerPartition (rows : List Record) : List RankRow :=
  sortByLe (fun a b => decide (a.reading_date ≤ b.reading_date))
    ((query_window rows).filter fun r => r.temp_rank = 1)

/-! ### Pandas correlation step (`main`, `df_all[["temperature", "humidity"]].corr()`) -/

/-- Arithmetic mean, as used inside the centred sums below. -/
def colMean (l : List ℚ) : ℚ := l.sum / (l.length : ℚ)

/-- Sum of products of deviations from the mean:
`Σ (xᵢ - x̄)(yᵢ - ȳ)` over the paired entries. -/
def centeredDot (x y : List ℚ) : ℚ :=
  (List.zipWith (fun a b => (a - colMean x) * (b - colMean y)) x y).sum

/-- The Pearson correlation coefficient of two columns, as Pandas `corr`
computes it: `Σ(x-x̄)(y-ȳ) / (√Σ(x-x̄)² · √Σ(y-ȳ)²)` (the `1/(n-1)`
normalisation of covariance and standard deviations cancels). -/
noncomputable def pearson (x y : List ℚ) : ℝ :=
  ((centeredDot x y : ℚ) : ℝ) /
    (Real.sqrt ((centeredDot x x : ℚ) : ℝ) * Real.sqrt ((centeredDot y y : ℚ) : ℝ))

/-- Written from the spec's words (§4.5): covariance of the two series
divided by the product of their standard deviations, with the sample
(`n-1`) convention Pandas defaults to. -/
noncomputable def specPearson (x y : List ℚ) : ℝ :=
  (((centeredDot x y / (x.length - 1 : ℚ)) : ℚ) : ℝ) /
    (Real.sqrt (((centeredDot x x / (x.length - 1 : ℚ)) : ℚ) : ℝ) *
      Real.sqrt (((centeredDot y y / (y.length - 1 : ℚ)) : ℚ) : ℝ))

/-- The temperature column of `df_all` (the `SELECT * FROM climate_data`
result). -/
def colTemperature : List ℚ := db12.rows.map (·.temperature)

/-- The humidity column of `df_all`. -/
def colHumidity : List ℚ := db12.rows.map (·.humidity)

/-- The two columns selected by `df_all[["temperature", "humidity"]]`,
indexed 0 = temperature, 1 = humidity. -/
def corrCols : Fin 2 → List ℚ
  | 0 => colTemperature
  | 1 => colHumidity

/-- The 2×2 matrix printed as the correlation report:
entry `(i, j)` is the Pearson correlation of columns `i` and `j`. -/
noncomputable def corrMatrix : Matrix (Fin 2) (Fin 2) ℝ :=
  Matrix.of fun i j => pearson (corrCols i) (corrCols j)

/-! ### `main`: report sections, printed data, control flow -/

/-- A printed report section: its header line (the `=== ... ===` string
printed before the data) and whether a blank line follows the data (the
trailing `"\x22 \x5cn\x22"` argument of the `print` call). -/
structure ReportSection where
  header : String
  blankAfter : Bool
deriving DecidableEq, Repr

/-- `run_basic_analytics`: runs `query_avg` (a pure `SELECT`, so the
database state it hands back is the one it received) and prints one
section, with a blank line after the table. -/
def run_basic_analytics (db : DBState) : List ReportSection × List AvgRow × DBState :=
  ([⟨"=== Average Temperature & Humidity by City ===", true⟩], query_avg db.rows, db)

/-- `run_advanced_analytics`: runs `query_window` and `query_cte` (pure
`SELECT`s) and prints two sections, each with a blank line after. -/
def run_advanced_analytics
    (db : DBState) : List ReportSection × (List RankRow × List RankRow) × DBState :=
  ([⟨"=== Window Function: Temperature Rank per Date ===", true⟩,
    ⟨"=== CTE: Hottest City per Date ===", true⟩],
   (query_window db.rows, query_cte db.rows), db)

/-- `pd.read_sql_query("SELECT * FROM climate_data;", conn)`: reads the
whole table without modifying it. -/
def df_all (db : DBState) : List Record × DBState := (db.rows, db)

/-- Pandas `DataFrame.head()`: the first 5 rows. -/
def dfHead (rows : List Record) : List Record := rows.take 5

/-- What one run of `main` produces: the report sections in print order,
each query's result, the rows printed by `print(df_all.head(), "\x5cn")`,
and the final database state. -/
structure MainResult where
  sections : List ReportSection
  avgReport : List AvgRow
  windowReport : List RankRow
  cteReport : List RankRow
  fullTablePrinted : List Record
  finalDB : DBState
deriving DecidableEq, Repr

/-- The single run of `main`: connect to `:memory:`, populate, run the
three analytics queries, read the full table, print `head()` and the
correlation matrix.  The `.error` branch is unreachable (the loader uses
`IF NOT EXISTS` on a fresh database). -/
def main_run : MainResult :=
  match create_and_populate_db emptyDB with
  | .error _ => ⟨[], [], [], [], [], emptyDB⟩
  | .ok db1 =>
    let (s1, avg, db2) := run_basic_analytics db1
    let (s2, reports, db3) := run_advanced_analytics db2
    let (dfA, db4) := df_all db3
    { sections := s1 ++ s2 ++
        [⟨"=== Full climate_data Table in Pandas ===", true⟩,
         ⟨"=== Correlation Matrix between Temperature & Humidity ===", false⟩],
      avgReport := avg,
      windowReport := reports.1,
      cteReport := reports.2,
      fullTablePrinted := dfHead dfA,
      finalDB := db4 }

/-- Control flow of `main` with respect to exceptions: `main` runs its four
database steps (`create_and_populate_db`, `run_basic_analytics`,
`run_advanced_analytics`, the full-table read and correlation) in sequence
and then calls `conn.close()`, with no `try`/`finally` or context manager;
an uncaught exception in a step skips everything after it.  Given which
steps raise, this returns whether the `conn.close()` line is reached. -/
def seqCloseReached : List Bool → Bool
  | [] => true
  | raises :: rest => if raises then false else seqCloseReached rest

/-- Whether `conn.close()` is reached in `main` when the four sequential
steps raise as indicated. -/
def mainCloseReached (r1 r2 r3 r4 : Bool) : Bool :=
  seqCloseReached [r1, r2, r3, r4]

/-- `l` is sorted with respect to the boolean relation `le`: every adjacent
pair satisfies it. -/
def sortedByB (le : α → α → Bool) : List α → Bool
  | [] => true
  | [_] => true
  | a :: b :: l => le a b && sortedByB le (b :: l)

/-- The database state after a second `create_and_populate_db` on the same
connection: the twelve records inserted again, with ids 13..24. -/
def db24 : DBState := insertMany db12 sampleData

end SqlClimateDemo

deriving instance DecidableEq for Except

namespace SqlClimateDemo

/-! ### Claims -/

/-- C1 counterexample.  The aggregation report is NOT ordered
Houston, San Diego, New York, Chicago: San Diego's mean temperature
(49.7/3 ≈ 16.57) exceeds Houston's (37.3/3 ≈ 12.43), so San Diego comes
first under `ORDER BY avg_temp DESC`. -/
theorem C1_counterexample :
    (query_avg db12.rows).map AvgRow.city ≠
      ["Houston", "San Diego", "New York", "Chicago"] := by
  with_unfolding_all decide

/-- C1, amended.  For the fixed twelve-record dataset, the rows of the
aggregation report are strictly ordered by descending mean temperature,
and that order is San Diego first, then Houston, then New York, then
Chicago. -/
theorem C1_agg_order_amended :
    (query_avg db12.rows).map AvgRow.city =
      ["San Diego", "Houston", "New York", "Chicago"] ∧
    sortedByB (fun x y => decide (y.avg_temp < x.avg_temp))
      (query_avg db12.rows) = true := by
  with_unfolding_all decide

/-- C2 counterexample.  The rank-1 record is NOT Houston on 2025-01-01 nor
on 2025-01-02: on every date San Diego has the strictly highest
temperature, so the single rank-1 row of each of those dates is
San Diego. -/
theorem C2_counterexample :
    ((query_window db12.rows).filter fun r =>
      r.temp_rank = 1 ∧ r.reading_date = "2025-01-01").map RankRow.city =
      ["San Diego"] ∧
    ((query_window db12.rows).filter fun r =>
      r.temp_rank = 1 ∧ r.reading_date = "2025-01-02").map RankRow.city =
      ["San Diego"] ∧
    ("San Diego" : String) ≠ "Houston" := by
  with_unfolding_all decide

/-- C2, amended.  For the fixed twelve-record dataset, the ranking report
assigns rank 1 to exactly one record per date, and the rank-1 record is
San Diego for 2025-01-01, San Diego for 2025-01-02, and San Diego for
2025-01-03. -/
theorem C2_rank1_per_date_amended :
    ((query_window db12.rows).filter fun r =>
      r.temp_rank = 1 ∧ r.reading_date = "2025-01-01").map RankRow.city =
      ["San Diego"] ∧
    ((query_window db12.rows).filter fun r =>
      r.temp_rank = 1 ∧ r.reading_date = "2025-01-02").map RankRow.city =
      ["San Diego"] ∧
    ((query_window db12.rows).filter fun r =>
      r.temp_rank = 1 ∧ r.reading_date = "2025-01-03").map RankRow.city =
      ["San Diego"] := by
  with_unfolding_all decide

/-- C3.  For the fixed twelve-record dataset, the aggregation report has
exactly 4 rows, one per distinct city; each row holds the arithmetic mean
of that city's three temperatures and of its three humidities; the Houston
row has mean temperature (10.2+12.1+15.0)/3 and mean humidity
(70.0+68.0+65.0)/3. -/
theorem C3_agg_report :
    (query_avg db12.rows).length = 4 ∧
    firstOccurrences ((query_avg db12.rows).map AvgRow.city) =
      (query_avg db12.rows).map AvgRow.city ∧
    (∀ x ∈ query_avg db12.rows,
      x.avg_temp =
        listAvg ((db12.rows.filter fun r => r.city = x.city).map Record.temperature) ∧
      x.avg_humidity =
        listAvg ((db12.rows.filter fun r => r.city = x.city).map Record.humidity) ∧
      (db12.rows.filter fun r => r.city = x.city).length = 3) ∧
    (∃ x ∈ query_avg db12.rows, x.city = "Houston" ∧
      x.avg_temp = (10.2 + 12.1 + 15.0) / 3 ∧
      x.avg_humidity = (70.0 + 68.0 + 65.0) / 3) := by
  with_unfolding_all decide

/-- C4.  In the ranking report every record's rank equals 1 plus the number
of same-date records with strictly greater temperature (rank with gaps);
the report's rows are ordered by reading date then by rank ascending; and
each of the ranks 1..4 appears exactly once per date. -/
theorem C4_rank_semantics :
    (∀ w ∈ query_window db12.rows,
      w.temp_rank = 1 + (db12.rows.filter fun s =>
        s.reading_date = w.reading_date ∧ w.temperature < s.temperature).length) ∧
    sortedByB (fun x y => decide (x.reading_date < y.reading_date) ||
        (decide (x.reading_date = y.reading_date) && decide (x.temp_rank ≤ y.temp_rank)))
      (query_window db12.rows) = true ∧
    (["2025-01-01", "2025-01-02", "2025-01-03"].map fun d =>
      [1, 2, 3, 4].map fun k =>
        ((query_window db12.rows).filter fun r =>
          r.reading_date = d ∧ r.temp_rank = k).length) =
      [[1, 1, 1, 1], [1, 1, 1, 1], [1, 1, 1, 1]] := by
  with_unfolding_all decide

/-- C5.  The CTE query's output equals the spec's description — the §4.3
ranking restricted to rank-1 rows, ordered by date ascending; it is a
strict subset of the ranking report's rows, has exactly one row per
distinct date, and every row has rank 1. -/
theorem C5_cte_top_filter :
    query_cte db12.rows = specTopPerPartition db12.rows ∧
    (∀ r ∈ query_cte db12.rows, r ∈ query_window db12.rows) ∧
    (∃ r ∈ query_window db12.rows, r ∉ query_cte db12.rows) ∧
    (query_cte db12.rows).map RankRow.reading_date =
      ["2025-01-01", "2025-01-02", "2025-01-03"] ∧
    (∀ r ∈ query_cte db12.rows, r.temp_rank = 1) := by
  with_unfolding_all decide

/-- The centred cross sum `Σ(t-t̄)(h-h̄)` of the two columns, evaluated. -/
lemma centeredDot_TH_val :
    centeredDot colTemperature colHumidity = 13369 / 20 :=
  le_antisymm (by with_unfolding_all decide) (by with_unfolding_all decide)

/-- The centred cross sum with the columns swapped, evaluated. -/
lemma centeredDot_HT_val :
    centeredDot colHumidity colTemperature = 13369 / 20 :=
  le_antisymm (by with_unfolding_all decide) (by with_unfolding_all decide)

/-- The centred sum of squares of the temperature column, evaluated. -/
lemma centeredDot_TT_val :
    centeredDot colTemperature colTemperature = 430897 / 400 :=
  le_antisymm (by with_unfolding_all decide) (by with_unfolding_all decide)

/-- The centred sum of squares of the humidity column, evaluated. -/
lemma centeredDot_HH_val :
    centeredDot colHumidity colHumidity = 1321 :=
  le_antisymm (by with_unfolding_all decide) (by with_unfolding_all decide)

/-- The centred sum of squares of the temperature column is positive (the
column is not constant). -/
lemma centeredDot_TT_pos :
    (0 : ℚ) < centeredDot colTemperature colTemperature := by
  rw [centeredDot_TT_val]; norm_num

/-- The centred sum of squares of the humidity column is positive. -/
lemma centeredDot_HH_pos :
    (0 : ℚ) < centeredDot colHumidity colHumidity := by
  rw [centeredDot_HH_val]; norm_num

/-- The cross centred sum of temperature against humidity is positive for
this dataset: warmer cities also record higher humidity. -/
lemma centeredDot_TH_pos :
    (0 : ℚ) < centeredDot colTemperature colHumidity := by
  rw [centeredDot_TH_val]; norm_num

/-- The cross centred sum is symmetric in its two columns (evaluated on the
dataset's columns). -/
lemma centeredDot_TH_comm :
    centeredDot colTemperature colHumidity =
      centeredDot colHumidity colTemperature := by
  rw [centeredDot_TH_val, centeredDot_HT_val]

/-- Cauchy-Schwarz for the two concrete columns, at the rational level. -/
lemma centeredDot_cauchy :
    centeredDot colTemperature colHumidity *
        centeredDot colTemperature colHumidity ≤
      centeredDot colTemperature colTemperature *
        centeredDot colHumidity colHumidity := by
  rw [centeredDot_TH_val, centeredDot_TT_val, centeredDot_HH_val]; norm_num

lemma colTemperature_length : colTemperature.length = 12 := by
  with_unfolding_all decide

lemma colHumidity_length : colHumidity.length = 12 := by
  with_unfolding_all decide

/-- The off-diagonal correlation entry is strictly positive. -/
lemma pearson_TH_pos : 0 < pearson colTemperature colHumidity := by
  unfold pearson
  refine div_pos ?_ (mul_pos ?_ ?_)
  · exact_mod_cast centeredDot_TH_pos
  · exact Real.sqrt_pos.mpr (by exact_mod_cast centeredDot_TT_pos)
  · exact Real.sqrt_pos.mpr (by exact_mod_cast centeredDot_HH_pos)

/-- A column correlated with itself gives 1 (temperature). -/
lemma pearson_TT_one : pearson colTemperature colTemperature = 1 := by
  unfold pearson
  rw [Real.mul_self_sqrt (by exact_mod_cast centeredDot_TT_pos.le)]
  exact div_self (by exact_mod_cast centeredDot_TT_pos.ne')

/-- A column correlated with itself gives 1 (humidity). -/
lemma pearson_HH_one : pearson colHumidity colHumidity = 1 := by
  unfold pearson
  rw [Real.mul_self_sqrt (by exact_mod_cast centeredDot_HH_pos.le)]
  exact div_self (by exact_mod_cast centeredDot_HH_pos.ne')

/-- The two cross entries of the correlation matrix agree. -/
lemma pearson_TH_symm :
    pearson colTemperature colHumidity = pearson colHumidity colTemperature := by
  unfold pearson
  rw [centeredDot_TH_comm, mul_comm]

/-- The off-diagonal correlation entry is at most 1. -/
lemma pearson_TH_le_one : pearson colTemperature colHumidity ≤ 1 := by
  unfold pearson
  rw [div_le_one (mul_pos
      (Real.sqrt_pos.mpr (by exact_mod_cast centeredDot_TT_pos))
      (Real.sqrt_pos.mpr (by exact_mod_cast centeredDot_HH_pos))),
    ← Real.sqrt_mul (by exact_mod_cast centeredDot_TT_pos.le)]
  refine Real.le_sqrt_of_sq_le ?_
  rw [sq]
  exact_mod_cast centeredDot_cauchy

/-- The source's correlation (with the common `1/(n-1)` factors cancelled)
equals the spec's covariance-over-product-of-standard-deviations form. -/
lemma specPearson_eq_pearson :
    specPearson colTemperature colHumidity = pearson colTemperature colHumidity := by
  have ha : (0 : ℝ) ≤ ((centeredDot colTemperature colTemperature : ℚ) : ℝ) := by
    exact_mod_cast centeredDot_TT_pos.le
  have hb : (0 : ℝ) ≤ ((centeredDot colHumidity colHumidity : ℚ) : ℝ) := by
    exact_mod_cast centeredDot_HH_pos.le
  have hsa : Real.sqrt ((centeredDot colTemperature colTemperature : ℚ) : ℝ) ≠ 0 :=
    (Real.sqrt_pos.mpr (lt_of_le_of_ne ha (by exact_mod_cast centeredDot_TT_pos.ne))).ne'
  have hsb : Real.sqrt ((centeredDot colHumidity colHumidity : ℚ) : ℝ) ≠ 0 :=
    (Real.sqrt_pos.mpr (lt_of_le_of_ne hb (by exact_mod_cast centeredDot_HH_pos.ne))).ne'
  have h11 : Real.sqrt 11 * Real.sqrt 11 = 11 :=
    Real.mul_self_sqrt (by norm_num)
  have h11' : Real.sqrt 11 ≠ 0 :=
    (Real.sqrt_pos.mpr (by norm_num)).ne'
  unfold specPearson pearson
  rw [colTemperature_length, colHumidity_length]
  push_cast
  norm_num
  rw [div_mul_div_comm, h11]
  rw [div_div_div_cancel_right₀]
  norm_num

/-- C6 counterexample.  The off-diagonal entry of the correlation matrix is
not strictly negative: temperature and humidity are positively correlated
across this dataset (the warm cities also have the higher humidities). -/
theorem C6_counterexample : ¬ (corrMatrix 0 1 < 0) := by
  have h : corrMatrix 0 1 = pearson colTemperature colHumidity := rfl
  rw [h]
  exact not_lt.mpr pearson_TH_pos.le

/-- C6, amended.  The 2×2 correlation matrix is symmetric, has 1.0 on both
diagonal entries, equal off-diagonal entries of magnitude at most 1.0
matching the standard Pearson definition (covariance divided by the
product of the standard deviations, sample convention), and for the fixed
dataset the off-diagonal value is strictly positive. -/
theorem C6_corr_matrix_amended :
    (∀ i j, corrMatrix i j = corrMatrix j i) ∧
    corrMatrix 0 0 = 1 ∧
    corrMatrix 1 1 = 1 ∧
    corrMatrix 0 1 = corrMatrix 1 0 ∧
    |corrMatrix 0 1| ≤ 1 ∧
    corrMatrix 0 1 = specPearson colTemperature colHumidity ∧
    0 < corrMatrix 0 1 := by
  have hTH : corrMatrix 0 1 = pearson colTemperature colHumidity := rfl
  have hHT : corrMatrix 1 0 = pearson colHumidity colTemperature := rfl
  refine ⟨?_, pearson_TT_one, pearson_HH_one, ?_, ?_, ?_, ?_⟩
  · intro i j
    fin_cases i <;> fin_cases j
    · rfl
    · exact pearson_TH_symm
    · exact pearson_TH_symm.symm
    · rfl
  · rw [hTH, hHT]; exact pearson_TH_symm
  · rw [hTH]
    exact abs_le.mpr ⟨by linarith [pearson_TH_pos], pearson_TH_le_one⟩
  · rw [hTH, specPearson_eq_pearson]
  · rw [hTH]; exact pearson_TH_pos

/-- C7 counterexample.  A run prints five labeled sections, not four: the
full-table preview (`=== Full climate_data Table in Pandas ===`) is a
fifth section; the final (correlation) section is not followed by a blank
line; and the full-table section prints `df_all.head()` — five rows, not
the twelve-record dataset. -/
theorem C7_counterexample :
    main_run.sections.length = 5 ∧
    main_run.sections.length ≠ 4 ∧
    main_run.sections.map ReportSection.blankAfter =
      [true, true, true, true, false] ∧
    main_run.fullTablePrinted ≠ main_run.finalDB.rows ∧
    main_run.fullTablePrinted.length = 5 := by
  with_unfolding_all decide

/-- C7, amended.  A run prints exactly five labeled report sections in the
fixed order: average-by-city table, rank-per-date table, hottest-city-per-
date table, full-table preview, correlation matrix.  The first four are
followed by a blank line; the correlation section is not.  Only the first
five of the twelve records are printed in the full-table section (Pandas
`head()`). -/
theorem C7_report_sections_amended :
    main_run.sections =
      [⟨"=== Average Temperature & Humidity by City ===", true⟩,
       ⟨"=== Window Function: Temperature Rank per Date ===", true⟩,
       ⟨"=== CTE: Hottest City per Date ===", true⟩,
       ⟨"=== Full climate_data Table in Pandas ===", true⟩,
       ⟨"=== Correlation Matrix between Temperature & Humidity ===", false⟩] ∧
    main_run.fullTablePrinted = db12.rows.take 5 ∧
    main_run.fullTablePrinted.length = 5 ∧
    db12.rows.length = 12 := by
  with_unfolding_all decide

/-- C8.  After the single batch insert the table holds exactly twelve
records — four distinct cities times three distinct dates, every (city,
date) pair occurring once, with city and reading date nonempty — and every
subsequent operation of the run (the three analytics queries and the
full-table read) hands back the database state it received; the state at
the end of `main` is still the loaded one. -/
theorem C8_table_fixed :
    db12.rows.length = 12 ∧
    (firstOccurrences (db12.rows.map Record.city)).length = 4 ∧
    (firstOccurrences (db12.rows.map Record.reading_date)).length = 3 ∧
    (db12.rows.map fun r => (r.city, r.reading_date)).Nodup ∧
    (∀ r ∈ db12.rows, r.city ≠ "" ∧ r.reading_date ≠ "") ∧
    (∀ db, (run_basic_analytics db).2.2 = db) ∧
    (∀ db, (run_advanced_analytics db).2.2 = db) ∧
    (∀ db, (df_all db).2 = db) ∧
    main_run.finalDB = db12 := by
  refine ⟨?_, ?_, ?_, ?_, ?_, fun db => rfl, fun db => rfl, fun db => rfl, ?_⟩ <;>
    with_unfolding_all decide

/-- C9 counterexample.  `conn.close()` is not reached on every execution
path: if `run_basic_analytics` (the second step) raises, the close —
placed after all steps with no `try`/`finally` — is skipped. -/
theorem C9_counterexample :
    mainCloseReached false true false false = false ∧
    ¬ (∀ r1 r2 r3 r4 : Bool, mainCloseReached r1 r2 r3 r4 = true) := by
  decide

/-- C9, amended.  The connection close at the end of `main` is reached
exactly on the executions in which none of the four sequential steps
raises; an exception in any step skips the close (the connection is then
released only by process termination). -/
theorem C9_close_reached_amended :
    ∀ r1 r2 r3 r4 : Bool,
      mainCloseReached r1 r2 r3 r4 = (!r1 && !r2 && !r3 && !r4) := by
  decide

/-- C9 amended theorem, instantiated at a concrete input. -/
theorem C9_close_reached_amended_witness :
    mainCloseReached false true false false = (!false && !true && !false && !false) :=
  C9_close_reached_amended false true false false

/-- C10.  A second `create_and_populate_db` on the same connection
succeeds (`CREATE TABLE IF NOT EXISTS`) but inserts the twelve literal
records again, leaving twenty-four rows: the loader is not idempotent, so
two calls differ from one. -/
theorem C10_double_populate :
    create_and_populate_db emptyDB = .ok db12 ∧
    create_and_populate_db db12 = .ok db24 ∧
    db12.rows.length = 12 ∧
    db24.rows.length = 24 ∧
    db24 ≠ db12 := by
  with_unfolding_all decide

end SqlClimateDemo
